import Mathlib

/-!
Verification development for the Clightd daemon sources.

The development shallowly embeds the three source files of the repository:

* the gamma color-temperature engine (`clamp`, `get_red`, `get_green`,
  `get_blue`, `get_temp`) — the C code computes with `double` and `libm`'s
  `log`; the embedding models `double` arithmetic by exact real arithmetic
  (`ℝ`, `Real.log`) and the `(unsigned short)` conversion of a nonnegative
  value by `Int.floor`;
* the webcam frame-capture pipeline of `camera.c`
  (`method_captureframes`, `capture_frames`, `open_device`, `init_dev`,
  `init_mmap`, `start_stream`, `stop_stream`, `capture_frame`,
  `compute_brightness`, `compute_avg_brightness`, `free_all`) — `double`
  brightness arithmetic is modelled by `ℚ`, and the outcomes of the
  system calls (`open`, `ioctl`, `mmap`) are supplied by an explicit
  environment record so that the control flow is a pure function of those
  outcomes;
* the event-dispatcher `main.c` (`main_poll`, `bus_cb`, `signal_cb`,
  `main`) — each poll wake-up is an environment record carrying the poll
  return value, the per-index readiness bits and the handler outcomes.
-/

/- ------------------------------------------------------------------ -/
/- GammaMath: gamma.c                                                  -/
/- ------------------------------------------------------------------ -/

/-- Embedding of `clamp` from gamma.c: `if (x > max) return max; return x;`
with the implicit conversion of the `double` result to `unsigned short`
modelled by `Int.floor` (the C conversion truncates toward zero, which
agrees with `Int.floor` on the nonnegative values arising here). -/
noncomputable def clamp (x max : ℝ) : ℤ :=
  if max < x then ⌊max⌋ else ⌊x⌋

/-- Embedding of `get_red` from gamma.c. -/
noncomputable def get_red (temp : ℤ) : ℤ :=
  if temp ≤ 6500 then 255
  else
    let a : ℝ := 351.97690566805693
    let b : ℝ := 0.114206453784165
    let c : ℝ := -40.25366309332127
    let new_temp : ℝ := (temp : ℝ) / 100 - 55
    clamp (a + b * new_temp + c * Real.log new_temp) 255

/-- Embedding of `get_green` from gamma.c. -/
noncomputable def get_green (temp : ℤ) : ℤ :=
  if temp ≤ 6500 then
    let a : ℝ := -155.25485562709179
    let b : ℝ := -0.44596950469579133
    let c : ℝ := 104.49216199393888
    let new_temp : ℝ := (temp : ℝ) / 100 - 2
    clamp (a + b * new_temp + c * Real.log new_temp) 255
  else
    let a : ℝ := 325.4494125711974
    let b : ℝ := 0.07943456536662342
    let c : ℝ := -28.0852963507957
    let new_temp : ℝ := (temp : ℝ) / 100 - 50
    clamp (a + b * new_temp + c * Real.log new_temp) 255

/-- Embedding of `get_blue` from gamma.c. -/
noncomputable def get_blue (temp : ℤ) : ℤ :=
  if temp ≤ 1900 then 0
  else if temp < 6500 then
    let a : ℝ := -254.76935184120902
    let b : ℝ := 0.8274096064007395
    let c : ℝ := 115.67994401066147
    let new_temp : ℝ := (temp : ℝ) / 100 - 10
    clamp (a + b * new_temp + c * Real.log new_temp) 255
  else 255

/-- Embedding of the post-loop 50-step snapping of `get_temp` in gamma.c
(`if (temperature % 50 != 0) { ... }`). -/
noncomputable def snap_step (R B temperature : ℤ) : ℤ :=
  if temperature % 50 ≠ 0 then
    let tmp1 := temperature - temperature % 50
    if get_red tmp1 = R ∧ get_blue tmp1 = B then tmp1
    else
      let tmp2 := temperature + 50 - temperature % 50
      if get_red tmp2 = R ∧ get_blue tmp2 = B then tmp2
      else temperature
  else temperature

/-- Embedding of the `do { ... } while (testR != R || testB != B)` bisection
loop of `get_temp` in gamma.c, with explicit fuel (the C loop has no
iteration bound; fuel `0` returns `none`).  One unit of fuel is one
execution of the loop body. -/
noncomputable def get_tempGo (R B : ℤ) : ℕ → ℤ → ℤ → Option ℤ
  | 0, _, _ => none
  | fuel + 1, min_temp, max_temp =>
    let temperature : ℤ := (max_temp + min_temp) / 2
    let testR := get_red temperature
    let testB := get_blue temperature
    let descend : Prop := (testB : ℝ) / (testR : ℝ) > (B : ℝ) / (R : ℝ)
    let min_temp2 := if descend then min_temp else temperature
    let max_temp2 := if descend then temperature else max_temp
    if testR = R ∧ testB = B then some (snap_step R B temperature)
    else get_tempGo R B fuel min_temp2 max_temp2

/-- Embedding of `get_temp` from gamma.c: initialise the search bounds from
the saturation of the input channels, then run the bisection loop. -/
noncomputable def get_temp (R B : ℤ) (fuel : ℕ) : Option ℤ :=
  get_tempGo R B fuel (if B = 255 then 6500 else 1000) (if R = 255 then 6500 else 10000)

/-- C9: when both the red and the blue input channel are 255, `get_temp`
initialises both search bounds to 6500, the first midpoint 6500 already
satisfies the exact-match exit condition (`get_red 6500 = 255` and
`get_blue 6500 = 255`), and the loop returns exactly 6500 with a single
unit of fuel, i.e. after a single iteration. -/
theorem C9_saturated_pair_single_iteration :
    get_temp 255 255 1 = some 6500 ∧ get_red 6500 = 255 ∧ get_blue 6500 = 255 := by
  refine ⟨?_, ?_, ?_⟩
  · simp only [get_temp, get_tempGo, get_red, get_blue, snap_step]
    norm_num
  · simp [get_red]
  · norm_num [get_blue]

/- ------------------------------------------------------------------ -/
/- C6: channel ranges                                                  -/
/- ------------------------------------------------------------------ -/

lemma clamp_range {x : ℝ} (hx : 0 ≤ x) : 0 ≤ clamp x 255 ∧ clamp x 255 ≤ 255 := by
  unfold clamp
  split
  · norm_num
  · rename_i h
    have hle : x ≤ (255 : ℝ) := le_of_not_lt h
    refine ⟨Int.floor_nonneg.mpr hx, ?_⟩
    calc (⌊x⌋ : ℤ) ≤ ⌊(255 : ℝ)⌋ := Int.floor_le_floor hle
      _ = 255 := by norm_num

lemma log_eight_ge : (2.0794415409 : ℝ) ≤ Real.log 8 := by
  have h : Real.log 8 = 3 * Real.log 2 := by
    rw [show (8 : ℝ) = 2 ^ 3 by norm_num, Real.log_pow]
    push_cast
    ring
  rw [h]
  nlinarith [Real.log_two_gt_d9]

lemma log_sixtyfour_le : Real.log 64 ≤ (4.1588830848 : ℝ) := by
  have h : Real.log 64 = 6 * Real.log 2 := by
    rw [show (64 : ℝ) = 2 ^ 6 by norm_num, Real.log_pow]
    push_cast
    ring
  rw [h]
  nlinarith [Real.log_two_lt_d9]

lemma log_nine_ge : (2.19055 : ℝ) ≤ Real.log 9 := by
  have hsplit : Real.log 9 = Real.log 8 + Real.log (9 / 8) := by
    rw [← Real.log_mul (by norm_num) (by norm_num)]
    norm_num
  have hfrac : (1 : ℝ) - ((9 : ℝ) / 8)⁻¹ ≤ Real.log (9 / 8) :=
    Real.one_sub_inv_le_log_of_pos (by norm_num)
  have hval : (1 : ℝ) - ((9 : ℝ) / 8)⁻¹ = 1 / 9 := by norm_num
  rw [hsplit]
  have := log_eight_ge
  linarith [hfrac, hval.ge.trans hfrac]

lemma get_red_range (t : ℤ) (h1 : 1000 ≤ t) (h2 : t ≤ 10000) :
    0 ≤ get_red t ∧ get_red t ≤ 255 := by
  by_cases ht : t ≤ 6500
  · simp [get_red, ht]
  · have h6 : (6501 : ℤ) ≤ t := by omega
    have htr : (6501 : ℝ) ≤ (t : ℝ) := by exact_mod_cast h6
    have htr2 : (t : ℝ) ≤ 10000 := by exact_mod_cast h2
    simp only [get_red, if_neg ht]
    apply clamp_range
    have hx1 : (10.01 : ℝ) ≤ (t : ℝ) / 100 - 55 := by linarith
    have hx2 : (t : ℝ) / 100 - 55 ≤ 45 := by linarith
    have hlog : Real.log ((t : ℝ) / 100 - 55) ≤ 4.1588830848 := by
      calc Real.log ((t : ℝ) / 100 - 55) ≤ Real.log 64 :=
            Real.log_le_log (by linarith) (by linarith)
        _ ≤ _ := log_sixtyfour_le
    linarith [hlog, hx1]

lemma get_green_range (t : ℤ) (h1 : 1000 ≤ t) (h2 : t ≤ 10000) :
    0 ≤ get_green t ∧ get_green t ≤ 255 := by
  by_cases ht : t ≤ 6500
  · have htr : (1000 : ℝ) ≤ (t : ℝ) := by exact_mod_cast h1
    have htr2 : (t : ℝ) ≤ 6500 := by exact_mod_cast ht
    simp only [get_green, if_pos ht]
    apply clamp_range
    have hx1 : (8 : ℝ) ≤ (t : ℝ) / 100 - 2 := by linarith
    have hx2 : (t : ℝ) / 100 - 2 ≤ 63 := by linarith
    have hlog : (2.0794415409 : ℝ) ≤ Real.log ((t : ℝ) / 100 - 2) := by
      calc (2.0794415409 : ℝ) ≤ Real.log 8 := log_eight_ge
        _ ≤ Real.log ((t : ℝ) / 100 - 2) := Real.log_le_log (by norm_num) hx1
    linarith [hlog, hx2]
  · have h6 : (6501 : ℤ) ≤ t := by omega
    have htr : (6501 : ℝ) ≤ (t : ℝ) := by exact_mod_cast h6
    have htr2 : (t : ℝ) ≤ 10000 := by exact_mod_cast h2
    simp only [get_green, if_neg ht]
    apply clamp_range
    have hx1 : (15.01 : ℝ) ≤ (t : ℝ) / 100 - 50 := by linarith
    have hx2 : (t : ℝ) / 100 - 50 ≤ 50 := by linarith
    have hlog : Real.log ((t : ℝ) / 100 - 50) ≤ 4.1588830848 := by
      calc Real.log ((t : ℝ) / 100 - 50) ≤ Real.log 64 :=
            Real.log_le_log (by linarith) (by linarith)
        _ ≤ _ := log_sixtyfour_le
    linarith [hlog, hx1]

lemma get_blue_range (t : ℤ) (h1 : 1000 ≤ t) (h2 : t ≤ 10000) :
    0 ≤ get_blue t ∧ get_blue t ≤ 255 := by
  by_cases ht : t ≤ 1900
  · simp [get_blue, ht]
  · by_cases ht2 : t < 6500
    · have h19 : (1901 : ℤ) ≤ t := by omega
      have htr : (1901 : ℝ) ≤ (t : ℝ) := by exact_mod_cast h19
      have h64 : t ≤ 6499 := by omega
      have htr2 : (t : ℝ) ≤ 6499 := by exact_mod_cast h64
      simp only [get_blue, if_neg ht, if_pos ht2]
      apply clamp_range
      have hx1 : (9.01 : ℝ) ≤ (t : ℝ) / 100 - 10 := by linarith
      have hx2 : (t : ℝ) / 100 - 10 ≤ 54.99 := by linarith
      have hlog : (2.19055 : ℝ) ≤ Real.log ((t : ℝ) / 100 - 10) := by
        calc (2.19055 : ℝ) ≤ Real.log 9 := log_nine_ge
          _ ≤ Real.log ((t : ℝ) / 100 - 10) := Real.log_le_log (by norm_num) (by linarith)
      linarith [hlog, hx1]
    · simp only [get_blue, if_neg ht, if_neg ht2]
      norm_num

/-- C6: for every integer temperature in [1000, 10000], including exactly at
the branch boundaries 1900 and 6500, each of `get_red`, `get_green` and
`get_blue` returns a value between 0 and 255 (the `double` curves are
modelled by exact real arithmetic; every curve stays nonnegative on its
branch and `clamp` caps it at 255). -/
theorem C6_kelvin_to_rgb_clamped (t : ℤ) (h1 : 1000 ≤ t) (h2 : t ≤ 10000) :
    (0 ≤ get_red t ∧ get_red t ≤ 255) ∧
    (0 ≤ get_green t ∧ get_green t ≤ 255) ∧
    (0 ≤ get_blue t ∧ get_blue t ≤ 255) :=
  ⟨get_red_range t h1 h2, get_green_range t h1 h2, get_blue_range t h1 h2⟩

/-- C6 witness: the theorem applied at the branch boundary 1900. -/
theorem C6_kelvin_to_rgb_clamped_witness :
    (1000 : ℤ) ≤ 1900 ∧ (1900 : ℤ) ≤ 10000 ∧
    ((0 ≤ get_red 1900 ∧ get_red 1900 ≤ 255) ∧
     (0 ≤ get_green 1900 ∧ get_green 1900 ≤ 255) ∧
     (0 ≤ get_blue 1900 ∧ get_blue 1900 ≤ 255)) :=
  ⟨by norm_num, by norm_num,
   C6_kelvin_to_rgb_clamped 1900 (by norm_num) (by norm_num)⟩

/- ------------------------------------------------------------------ -/
/- CaptureDevice / BrightnessSampler: camera.c                         -/
/- ------------------------------------------------------------------ -/

/-- Sum of the even-indexed entries of a byte list, one step of two bytes at
a time, as in the `for (i = 0; i < size; i += 2)` loop of
`compute_brightness`. -/
def evenSum : List ℕ → ℕ
  | [] => 0
  | [a] => a
  | a :: _ :: rest => a + evenSum rest

/-- Embedding of `compute_brightness` from camera.c: sum every even-indexed
byte of the first `size` bytes of the mapped buffer and divide by
`width * height`. -/
def compute_brightness (buffer : List ℕ) (size : ℕ) (width height : ℤ) : ℚ :=
  (evenSum (buffer.take size) : ℚ) / ((width : ℚ) * (height : ℚ))

/-- Fold of the scan loop of `compute_avg_brightness`: walk the sample array
tracking the index/value pair of the running lowest sample (`lo`), the
index/value pair of the running highest sample (`hi`) and the running
total, exactly as the C loop
`if (v[i] < v[lowest]) lowest = i; else if (v[i] > v[highest]) highest = i;
total += v[i];` does. -/
def cabGo : List ℚ → ℕ → ℕ × ℚ → ℕ × ℚ → ℚ → (ℕ × ℚ) × (ℕ × ℚ) × ℚ
  | [], _, lo, hi, total => (lo, hi, total)
  | v :: rest, i, lo, hi, total =>
    if v < lo.2 then cabGo rest (i + 1) (i, v) hi (total + v)
    else if hi.2 < v then cabGo rest (i + 1) lo (i, v) (total + v)
    else cabGo rest (i + 1) lo hi (total + v)

/-- Embedding of `compute_avg_brightness` from camera.c, over the sample
array (a `List ℚ` whose length is `num_captures`): when the total is
nonzero and there are at least 3 samples, drop the tracked highest and
lowest values, decrement the divisor by 2, then divide by 255 and by the
(possibly decremented) number of captures. -/
def compute_avg_brightness (vals : List ℚ) : ℚ :=
  let v0 := vals.getD 0 0
  let r := cabGo vals 0 (0, v0) (0, v0) 0
  let total := r.2.2
  let num_captures := vals.length
  if total ≠ 0 ∧ 2 < num_captures then
    ((total - (r.2.1.2 + r.1.2)) / 255) / ((num_captures - 2 : ℕ) : ℚ)
  else
    (total / 255) / (num_captures : ℚ)

/-- Environment for one iteration of the frame-capture loop: the outcomes of
the `VIDIOC_QBUF` and `VIDIOC_DQBUF` ioctls (0 = success, otherwise the
errno), the outcome of the `VIDIOC_STREAMOFF` issued by the early
`stop_stream()` on a QBUF failure, the driver-reported `bytesused`, and
the contents of the mapped buffer for this frame. -/
structure FrameEnv where
  qbuf : ℕ
  dqbuf : ℕ
  stop_on_fail : ℕ
  bytesused : ℕ
  buf : List ℕ

/-- Environment of one whole capture request: every system-call outcome the
pipeline consumes, in program order.  ioctl outcomes are 0 for success and
the (positive) errno otherwise; `open_ret` is the return value of
`open(2)` (-1 on failure); `mmap_ret` is the returned address, with -1
standing for `MAP_FAILED` and 0 for `NULL`. -/
structure CaptureEnv where
  open_ret : ℤ
  querycap : ℕ
  cap_capture : Bool
  cap_streaming : Bool
  s_priority : ℕ
  s_fmt : ℕ
  fmt_width : ℤ
  fmt_height : ℤ
  reqbufs : ℕ
  querybuf : ℕ
  buf_length : ℤ
  mmap_ret : ℤ
  streamon : ℕ
  frames : ℕ → FrameEnv
  streamoff : ℕ

/-- Embedding of `struct state` from camera.c (`quit`, `width`, `height`,
`device_fd`, `buf_size`, `brightness_values`, `buffer`); the sample array
is `none` while unallocated, and `buffer` is an address with 0 = `NULL`
and -1 = `MAP_FAILED`. -/
structure CState where
  quit : ℕ
  width : ℤ
  height : ℤ
  device_fd : ℤ
  buf_size : ℤ
  brightness_values : Option (List ℚ)
  buffer : ℤ

/-- Initial `struct state tmp = {0}`. -/
def state0 : CState := ⟨0, 0, 0, 0, 0, none, 0⟩

/-- Embedding of `xioctl` from camera.c: on failure the errno is stored in
`state->quit` (the `EINTR` retry loop is invisible at this level). -/
def xioctl (outcome : ℕ) (s : CState) : CState :=
  if outcome ≠ 0 then { s with quit := outcome } else s

/-- Embedding of `open_device` from camera.c. -/
def open_device (e : CaptureEnv) (s : CState) : CState :=
  let s1 := { s with device_fd := e.open_ret }
  if e.open_ret = -1 then { s1 with quit := 1 } else s1

/-- Embedding of `init` from camera.c (named `init_dev` here): query
capabilities, require capture and streaming support, best-effort priority
drop (its xioctl failure is explicitly reset to 0), then negotiate the
format and record the driver-reported width/height. -/
def init_dev (e : CaptureEnv) (s : CState) : CState :=
  if e.querycap ≠ 0 then xioctl e.querycap s
  else if ¬ e.cap_capture then { s with quit := 1 }
  else if ¬ e.cap_streaming then { s with quit := 1 }
  else
    let s1 := if e.s_priority ≠ 0 then { xioctl e.s_priority s with quit := 0 } else s
    if e.s_fmt ≠ 0 then xioctl e.s_fmt s1
    else { s1 with width := e.fmt_width, height := e.fmt_height }

/-- Embedding of `init_mmap` from camera.c: request one buffer, query it,
`mmap` it.  On `MAP_FAILED` the code sets `quit = 1` but still stores the
failed address in `state->buffer` and the length in `buf_size`. -/
def init_mmap (e : CaptureEnv) (s : CState) : CState :=
  if e.reqbufs ≠ 0 then xioctl e.reqbufs s
  else if e.querybuf ≠ 0 then xioctl e.querybuf s
  else
    let s1 := { s with buffer := e.mmap_ret }
    let s2 := if e.mmap_ret = -1 then { s1 with quit := 1 } else s1
    { s2 with buf_size := e.buf_length }

/-- Embedding of `start_stream` from camera.c. -/
def start_stream (e : CaptureEnv) (s : CState) : CState :=
  xioctl e.streamon s

/-- Embedding of `stop_stream` from camera.c (one `VIDIOC_STREAMOFF`
invocation with its own outcome). -/
def stop_stream (outcome : ℕ) (s : CState) : CState :=
  xioctl outcome s

/-- Store a brightness sample in slot `i` of the sample array. -/
def set_sample (i : ℕ) (v : ℚ) (s : CState) : CState :=
  { s with brightness_values := s.brightness_values.map (fun l => l.set i v) }

/-- Embedding of `capture_frame` from camera.c: enqueue the single buffer
(on failure, stop the stream and bail out), dequeue it (on failure, bail
out), otherwise store the computed brightness sample. -/
def capture_frame (f : FrameEnv) (i : ℕ) (s : CState) : CState :=
  if f.qbuf ≠ 0 then stop_stream f.stop_on_fail (xioctl f.qbuf s)
  else if f.dqbuf ≠ 0 then xioctl f.dqbuf s
  else set_sample i (compute_brightness f.buf f.bytesused s.width s.height) s

/-- Embedding of the capture loop
`for (int i = 0; i < num_captures && !state->quit; i++) capture_frame(i);`
with the remaining iteration count as fuel. -/
def cap_loop (e : CaptureEnv) : ℕ → ℕ → CState → CState
  | 0, _, s => s
  | m + 1, i, s =>
    if s.quit = 0 then cap_loop e m (i + 1) (capture_frame (e.frames i) i s) else s

/-- Which teardown actions `free_all` performs. -/
structure FreeActions where
  closed_fd : Bool
  unmapped : Bool
  freed_samples : Bool

/-- Embedding of `free_all` from camera.c: close the fd when it is not -1,
`munmap` the buffer when the stored pointer is non-NULL, free the sample
array when it was allocated. -/
def free_all (s : CState) : FreeActions :=
  ⟨s.device_fd != -1, s.buffer != 0, s.brightness_values.isSome⟩

/-- Result of one `capture_frames` request: the returned average (-1.0 when
an error occurred), the reported errno (`*err`; 0 when untouched), the
state handed to `free_all`, and the teardown actions performed. -/
structure CaptureResult where
  val : ℚ
  err : ℕ
  final : CState
  acts : FreeActions

/-- Embedding of `capture_frames` from camera.c: run the state machine
open → init → mmap → alloc samples → stream on → capture loop → stream
off; any stage failure jumps to the common exit, which reports
`state->quit` through `*err` and always calls `free_all`.  The average is
computed only when `state->quit` is still zero after `stop_stream`. -/
def capture_frames (e : CaptureEnv) (num_captures : ℕ) : CaptureResult :=
  let s1 := open_device e state0
  let sEnd :=
    if s1.quit = 0 then
      let s2 := init_dev e s1
      if s2.quit ≠ 0 then s2
      else
        let s3 := init_mmap e s2
        if s3.quit ≠ 0 then s3
        else
          let s4 := { s3 with brightness_values := some (List.replicate num_captures (0 : ℚ)) }
          let s5 := start_stream e s4
          if s5.quit ≠ 0 then s5
          else
            let s6 := cap_loop e num_captures 0 s5
            stop_stream e.streamoff s6
    else s1
  let avg : ℚ :=
    if sEnd.quit = 0 then compute_avg_brightness (sEnd.brightness_values.getD []) else -1
  ⟨avg, sEnd.quit, sEnd, free_all sEnd⟩

/- ------------------------------------------------------------------ -/
/- Bus method boundary: method_captureframes                           -/
/- ------------------------------------------------------------------ -/

def EPERM : ℕ := 1
def EINVAL : ℕ := 22

/-- Environment of one bus call to `method_captureframes`: the polkit
authorization verdict, the `sd_bus_message_read` return value, the
`get_udev_device` error (0 = a device was found) and the capture
environment used if the request reaches `capture_frames`. -/
structure MethodEnv where
  authorized : Bool
  parse_ret : ℤ
  lookup_err : ℕ
  cap : CaptureEnv

/-- Result of a bus call: the method return value, the replied average (if
any) and whether any device interaction (`get_udev_device` and beyond)
took place. -/
structure MethodResult where
  ret : ℤ
  reply_val : Option ℚ
  device_touched : Bool

/-- Embedding of `method_captureframes` from camera.c: authorization check,
parameter parse, `num_captures` range validation (all three before any
device interaction), then device lookup and the capture pipeline. -/
def method_captureframes (e : MethodEnv) (num_captures : ℤ) : MethodResult :=
  if ¬ e.authorized then ⟨-(EPERM : ℤ), none, false⟩
  else if e.parse_ret < 0 then ⟨e.parse_ret, none, false⟩
  else if num_captures ≤ 0 ∨ 20 < num_captures then ⟨-(EINVAL : ℤ), none, false⟩
  else if e.lookup_err ≠ 0 then ⟨-(e.lookup_err : ℤ), none, true⟩
  else
    let r := capture_frames e.cap num_captures.toNat
    if r.err ≠ 0 then ⟨-(r.err : ℤ), none, true⟩
    else ⟨0, some r.val, true⟩

/-- C7: for an authorized, successfully parsed request, a `num_captures` of
0, negative, or above 20 is rejected with the validation failure
`-EINVAL` and no device interaction happens (no lookup, open or ioctl),
while `num_captures` 1 or 20 passes validation and reaches the device. -/
theorem C7_capture_count_validation (e : MethodEnv) (n : ℤ)
    (hauth : e.authorized = true) (hparse : 0 ≤ e.parse_ret) :
    ((n ≤ 0 ∨ 20 < n) →
      method_captureframes e n = ⟨-(EINVAL : ℤ), none, false⟩) ∧
    ((n = 1 ∨ n = 20) → (method_captureframes e n).device_touched = true) := by
  constructor
  · intro hn
    unfold method_captureframes
    rw [if_neg (by simp [hauth]), if_neg (not_lt.mpr hparse), if_pos hn]
  · intro hn
    have hcond : ¬ (n ≤ 0 ∨ 20 < n) := by rcases hn with h | h <;> omega
    unfold method_captureframes
    rw [if_neg (by simp [hauth]), if_neg (not_lt.mpr hparse), if_neg hcond]
    split
    · rfl
    · dsimp only
      split <;> rfl

/-- A fully failing capture environment, used to instantiate witnesses. -/
def capEnv0 : CaptureEnv :=
  ⟨-1, 0, false, false, 0, 0, 0, 0, 0, 0, 0, -1, 0, fun _ => ⟨0, 0, 0, 0, []⟩, 0⟩

/-- An authorized, well-parsed method environment for witnesses. -/
def methEnv0 : MethodEnv := ⟨true, 0, 0, capEnv0⟩

/-- C7 witness: the theorem applied at `num_captures = 0` and
`num_captures = 1` over a concrete environment. -/
theorem C7_capture_count_validation_witness :
    method_captureframes methEnv0 0 = ⟨-(EINVAL : ℤ), none, false⟩ ∧
    (method_captureframes methEnv0 1).device_touched = true := by
  have h0 := C7_capture_count_validation methEnv0 0 rfl (le_refl 0)
  have h1 := C7_capture_count_validation methEnv0 1 rfl (le_refl 0)
  exact ⟨h0.1 (Or.inl (le_refl 0)), h1.2 (Or.inl rfl)⟩

/- ------------------------------------------------------------------ -/
/- C5 / C10: trimmed-mean aggregation                                  -/
/- ------------------------------------------------------------------ -/

lemma cabGo_total : ∀ (vals : List ℚ) (i : ℕ) (lo hi : ℕ × ℚ) (t : ℚ),
    (cabGo vals i lo hi t).2.2 = t + vals.sum := by
  intro vals
  induction vals with
  | nil => intro i lo hi t; simp [cabGo]
  | cons v rest ih =>
    intro i lo hi t
    simp only [cabGo]
    split_ifs <;> rw [ih] <;> rw [List.sum_cons] <;> ring

lemma cabGo_replicate (v : ℚ) : ∀ (n i li hi_ : ℕ) (t : ℚ),
    cabGo (List.replicate n v) i (li, v) (hi_, v) t = ((li, v), (hi_, v), t + n * v) := by
  intro n
  induction n with
  | zero => intro i li hi_ t; simp [cabGo]
  | succ m ih =>
    intro i li hi_ t
    rw [List.replicate_succ]
    simp only [cabGo]
    rw [if_neg (lt_irrefl v), if_neg (lt_irrefl v), ih]
    push_cast
    ring_nf

/-- C5: the aggregation drops the single lowest and single highest sample
when at least 3 samples exist and the total is nonzero, so
`[10, 90, 50, 60, 40]` yields exactly `(50 + 60 + 40) / 3 / 255`; with
fewer than 3 samples no trimming occurs and the plain mean divided by 255
is returned; and an all-zero sample array yields exactly 0. -/
theorem C5_trimmed_mean :
    compute_avg_brightness [10, 90, 50, 60, 40] = (50 + 60 + 40) / 3 / 255 ∧
    (∀ vals : List ℚ, 0 < vals.length → vals.length < 3 →
      compute_avg_brightness vals = (vals.sum / (vals.length : ℚ)) / 255) ∧
    (∀ vals : List ℚ, 0 < vals.length → (∀ v ∈ vals, v = 0) →
      compute_avg_brightness vals = 0) := by
  refine ⟨?_, ?_, ?_⟩
  · norm_num [compute_avg_brightness, cabGo, List.getD_cons_zero]
  · intro vals h1 h2
    simp only [compute_avg_brightness]
    rw [if_neg (fun h => absurd h.2 (by omega))]
    rw [cabGo_total, zero_add, div_div, div_div, mul_comm]
  · intro vals h1 h0
    have hsum : vals.sum = 0 := List.sum_eq_zero h0
    simp only [compute_avg_brightness]
    rw [cabGo_total, hsum]
    norm_num

/-- C5 witness: the trimmed-mean theorem applied to the singleton sample
list `[7]` (no trimming) and to the all-zero list `[0, 0, 0]`. -/
theorem C5_trimmed_mean_witness :
    compute_avg_brightness [(7 : ℚ)] = (([(7 : ℚ)].sum / (([(7 : ℚ)].length : ℚ))) / 255) ∧
    compute_avg_brightness [(0 : ℚ), 0, 0] = 0 := by
  refine ⟨C5_trimmed_mean.2.1 [(7 : ℚ)] ?_ ?_, C5_trimmed_mean.2.2 [(0 : ℚ), 0, 0] ?_ ?_⟩
  · norm_num
  · norm_num
  · norm_num
  · intro v hv
    simp at hv
    simp [hv]

/-- C10: for `n ≥ 3` samples all equal to a positive `v`, the tracked lowest
and highest indices both stay at 0 (the strict comparisons never fire), the
trim subtracts that one sample twice — which equals the true minimum plus
the true maximum — the divisor becomes `n - 2`, and the aggregate is
exactly `v / 255`. -/
theorem C10_uniform_samples (n : ℕ) (v : ℚ) (h3 : 3 ≤ n) (hv : 0 < v) :
    (cabGo (List.replicate n v) 0 (0, v) (0, v) 0).1.1 = 0 ∧
    (cabGo (List.replicate n v) 0 (0, v) (0, v) 0).2.1.1 = 0 ∧
    compute_avg_brightness (List.replicate n v) = v / 255 := by
  have hv0 : (List.replicate n v).getD 0 0 = v := by
    match n, h3 with
    | m + 3, _ => simp [List.replicate_succ]
  refine ⟨by rw [cabGo_replicate], by rw [cabGo_replicate], ?_⟩
  simp only [compute_avg_brightness, hv0, List.length_replicate, cabGo_replicate]
  have hnq : (3 : ℚ) ≤ (n : ℚ) := by exact_mod_cast h3
  have htot : (0 : ℚ) + (n : ℚ) * v ≠ 0 := by positivity
  rw [if_pos ⟨htot, by omega⟩]
  have hn2 : ((n - 2 : ℕ) : ℚ) = (n : ℚ) - 2 := by
    push_cast [Nat.cast_sub (by omega : 2 ≤ n)]
    ring
  rw [hn2]
  have hne : (n : ℚ) - 2 ≠ 0 := by nlinarith
  field_simp
  ring

/-- C10 witness: the uniform-sample theorem applied at `n = 3`, `v = 51`. -/
theorem C10_uniform_samples_witness :
    compute_avg_brightness (List.replicate 3 (51 : ℚ)) = 51 / 255 :=
  (C10_uniform_samples 3 51 (by norm_num) (by norm_num)).2.2

/- ------------------------------------------------------------------ -/
/- C1 / C3: capture pipeline error handling and teardown               -/
/- ------------------------------------------------------------------ -/

/-- Brightness sample produced by frame `j` of the environment under
negotiated width `w` and height `h`. -/
def sampleVal (e : CaptureEnv) (w h : ℤ) (j : ℕ) : ℚ :=
  compute_brightness (e.frames j).buf (e.frames j).bytesused w h

/-- The device was successfully opened, configured, memory-mapped and
streaming was started: every outcome up to and including `VIDIOC_STREAMON`
is a success (the priority ioctl is deliberately unconstrained — its
failure is non-fatal in `init`). -/
def setup_ok (e : CaptureEnv) : Prop :=
  e.open_ret ≠ -1 ∧ e.querycap = 0 ∧ e.cap_capture = true ∧ e.cap_streaming = true ∧
  e.s_fmt = 0 ∧ e.reqbufs = 0 ∧ e.querybuf = 0 ∧ e.mmap_ret ≠ -1 ∧ e.streamon = 0

/-- The state of the capture session right before the capture loop, given a
fully successful setup. -/
def entry_state (e : CaptureEnv) (n : ℕ) : CState :=
  ⟨0, e.fmt_width, e.fmt_height, e.open_ret, e.buf_length, some (List.replicate n 0), e.mmap_ret⟩

/-- Write the samples of frames `i, i+1, ..., i+m-1` into their slots of the
sample array (the effect of `m` successful loop iterations starting at
index `i`). -/
def setSamples (e : CaptureEnv) (w h : ℤ) : ℕ → ℕ → List ℚ → List ℚ
  | 0, _, l => l
  | m + 1, i, l => setSamples e w h m (i + 1) (l.set i (sampleVal e w h i))

lemma cap_loop_quit (e : CaptureEnv) (m i : ℕ) (s : CState) (h : s.quit ≠ 0) :
    cap_loop e m i s = s := by
  cases m <;> simp [cap_loop, h]

lemma cap_loop_add (e : CaptureEnv) :
    ∀ (m1 m2 i : ℕ) (s : CState),
      cap_loop e (m1 + m2) i s = cap_loop e m2 (i + m1) (cap_loop e m1 i s) := by
  intro m1
  induction m1 with
  | zero => intro m2 i s; simp [cap_loop]
  | succ k ih =>
    intro m2 i s
    have hrw : k + 1 + m2 = (k + m2) + 1 := by omega
    rw [hrw]
    by_cases hq : s.quit = 0
    · simp only [cap_loop, if_pos hq]
      rw [ih]
      have : i + 1 + k = i + (k + 1) := by omega
      rw [this]
    · rw [cap_loop_quit e _ _ s hq, cap_loop_quit e _ _ s hq, cap_loop_quit e _ _ s hq]

lemma cap_loop_ok (e : CaptureEnv) :
    ∀ (m i : ℕ) (s : CState), s.quit = 0 →
      (∀ j, i ≤ j → j < i + m → (e.frames j).qbuf = 0 ∧ (e.frames j).dqbuf = 0) →
      cap_loop e m i s =
        { s with brightness_values :=
            s.brightness_values.map (setSamples e s.width s.height m i) } := by
  intro m
  induction m with
  | zero =>
    intro i s hq hfr
    have hmap : s.brightness_values.map (setSamples e s.width s.height 0 i) =
        s.brightness_values := by
      cases s.brightness_values <;> simp [setSamples]
    rw [hmap]
    rfl
  | succ m ih =>
    intro i s hq hfr
    have hfi := hfr i (le_refl i) (by omega)
    have hstep : capture_frame (e.frames i) i s =
        { s with brightness_values :=
            s.brightness_values.map (fun l => l.set i (sampleVal e s.width s.height i)) } := by
      simp [capture_frame, hfi.1, hfi.2, set_sample, sampleVal]
    simp only [cap_loop, if_pos hq]
    rw [hstep, ih (i + 1) _ (by simp [hq]) (fun j hj1 hj2 => hfr j (by omega) (by omega))]
    simp only [Option.map_map]
    congr 1

lemma setSamples_get? (e : CaptureEnv) (w h : ℤ) :
    ∀ (m i : ℕ) (l : List ℚ) (j : ℕ),
      (setSamples e w h m i l).get? j =
        if i ≤ j ∧ j < i + m ∧ j < l.length then some (sampleVal e w h j) else l.get? j := by
  intro m
  induction m with
  | zero =>
    intro i l j
    rw [setSamples, if_neg (by omega)]
  | succ m ih =>
    intro i l j
    rw [setSamples, ih]
    by_cases hjl : j < l.length
    · by_cases hij : i = j
      · subst hij
        rw [if_neg (by omega), List.get?_set_eq_of_lt _ hjl, if_pos (by simp; omega)]
      · by_cases hrange : i + 1 ≤ j ∧ j < i + 1 + m
        · rw [if_pos (by simp; omega), if_pos (by omega)]
        · rw [if_neg (by simp; omega), List.get?_set_ne _ _ hij, if_neg (by omega)]
    · rw [if_neg (by simp; omega), if_neg (by omega)]
      rw [List.get?_eq_none.mpr (by simp; omega), List.get?_eq_none.mpr (by omega)]

lemma setSamples_replicate (e : CaptureEnv) (w h : ℤ) (n : ℕ) :
    setSamples e w h n 0 (List.replicate n (0 : ℚ)) =
      (List.range n).map (sampleVal e w h) := by
  apply List.ext_get?_iff.mpr
  intro j
  rw [setSamples_get?]
  by_cases hj : j < n
  · rw [if_pos (by simp; omega)]
    rw [List.get?_map, List.get?_range hj]
    rfl
  · rw [if_neg (by simp; omega)]
    rw [List.get?_eq_none.mpr (by simp; omega), List.get?_eq_none.mpr (by simp; omega)]

lemma setup_eval (e : CaptureEnv) (n : ℕ) (h : setup_ok e) :
    capture_frames e n =
      ⟨if (stop_stream e.streamoff (cap_loop e n 0 (entry_state e n))).quit = 0 then
          compute_avg_brightness
            ((stop_stream e.streamoff (cap_loop e n 0 (entry_state e n))).brightness_values.getD [])
        else -1,
       (stop_stream e.streamoff (cap_loop e n 0 (entry_state e n))).quit,
       stop_stream e.streamoff (cap_loop e n 0 (entry_state e n)),
       free_all (stop_stream e.streamoff (cap_loop e n 0 (entry_state e n)))⟩ := by
  obtain ⟨h1, h2, h3, h4, h5, h6, h7, h8, h9⟩ := h
  by_cases hp : e.s_priority = 0 <;>
    simp [capture_frames, open_device, init_dev, init_mmap, start_stream,
      xioctl, state0, entry_state, h1, h2, h3, h4, h5, h6, h7, h8, h9, hp]

/-- C1 (amended): for a capture request whose device was successfully
opened, configured, memory-mapped and streaming was started, a plain
numeric result (the aggregate of the collected samples, possibly 0) is
returned when every per-frame ioctl and the final stream-off also
succeed; but when an individual frame's enqueue or dequeue ioctl fails
mid-loop, the remaining loop is aborted and the request reports a
nonzero error code instead of a numeric result — the failing frame
ioctl's errno, unless a subsequent stream-off ioctl (the immediate stop
issued on an enqueue failure, or the unconditional final stream-off)
also fails, in which case that stream-off's errno overwrites it; the
samples collected before the failing frame are preserved in the sample
array yet contribute to no returned aggregate. -/
theorem C1_amended_mid_loop_failure (e : CaptureEnv) (n : ℕ) (hsetup : setup_ok e) :
    ((∀ j, j < n → (e.frames j).qbuf = 0 ∧ (e.frames j).dqbuf = 0) → e.streamoff = 0 →
      (capture_frames e n).err = 0 ∧
      (capture_frames e n).val =
        compute_avg_brightness
          ((List.range n).map (sampleVal e e.fmt_width e.fmt_height))) ∧
    (∀ k, k < n → (∀ j, j < k → (e.frames j).qbuf = 0 ∧ (e.frames j).dqbuf = 0) →
      ((e.frames k).qbuf ≠ 0 ∨ (e.frames k).dqbuf ≠ 0) →
      (capture_frames e n).err =
        (if e.streamoff ≠ 0 then e.streamoff
         else if (e.frames k).qbuf ≠ 0 then
           (if (e.frames k).stop_on_fail ≠ 0 then (e.frames k).stop_on_fail
            else (e.frames k).qbuf)
         else (e.frames k).dqbuf) ∧
      (capture_frames e n).err ≠ 0 ∧
      (capture_frames e n).val = -1 ∧
      ∀ j, j < k →
        ((capture_frames e n).final.brightness_values.getD []).get? j =
          some (sampleVal e e.fmt_width e.fmt_height j)) := by
  rw [setup_eval e n hsetup]
  constructor
  · intro hall hoff
    rw [cap_loop_ok e n 0 (entry_state e n) rfl (fun j hj1 hj2 => hall j (by omega))]
    simp [entry_state, stop_stream, xioctl, hoff, setSamples_replicate]
  · intro k hk hpre hfail
    obtain ⟨m, rfl⟩ : ∃ m, n = k + (m + 1) := ⟨n - k - 1, by omega⟩
    have h1 : cap_loop e k 0 (entry_state e (k + (m + 1))) =
        { entry_state e (k + (m + 1)) with brightness_values := some (setSamples e e.fmt_width e.fmt_height k 0 (List.replicate (k + (m + 1)) 0)) } := by
      rw [cap_loop_ok e k 0 _ rfl (fun j hj1 hj2 => hpre j (by omega))]
      simp [entry_state]
    set q1 : ℕ :=
      if (e.frames k).qbuf ≠ 0 then
        (if (e.frames k).stop_on_fail ≠ 0 then (e.frames k).stop_on_fail
         else (e.frames k).qbuf)
      else (e.frames k).dqbuf with hq1
    have hq1ne : q1 ≠ 0 := by
      rw [hq1]
      split_ifs with ha hb
      · exact hb
      · exact ha
      · tauto
    have hcf : capture_frame (e.frames k) k
        ({ entry_state e (k + (m + 1)) with brightness_values := some (setSamples e e.fmt_width e.fmt_height k 0 (List.replicate (k + (m + 1)) 0)) }) =
        { entry_state e (k + (m + 1)) with
            quit := q1,
            brightness_values := some (setSamples e e.fmt_width e.fmt_height k 0 (List.replicate (k + (m + 1)) 0)) } := by
      rw [hq1]
      by_cases ha : (e.frames k).qbuf ≠ 0
      · by_cases hb : (e.frames k).stop_on_fail ≠ 0 <;>
          simp [capture_frame, ha, hb, stop_stream, xioctl, entry_state]
      · have hq0 : (e.frames k).qbuf = 0 := by tauto
        have hdq : (e.frames k).dqbuf ≠ 0 := by tauto
        simp [capture_frame, hq0, hdq, xioctl, entry_state]
    have h2 : cap_loop e (k + (m + 1)) 0 (entry_state e (k + (m + 1))) =
        { entry_state e (k + (m + 1)) with
            quit := q1,
            brightness_values := some (setSamples e e.fmt_width e.fmt_height k 0 (List.replicate (k + (m + 1)) 0)) } := by
      rw [cap_loop_add, h1]
      simp only [Nat.zero_add, cap_loop]
      rw [if_pos (by simp [entry_state])]
      rw [hcf, cap_loop_quit _ _ _ _ (by simpa [entry_state] using hq1ne)]
    rw [h2]
    refine ⟨?_, ?_, ?_, ?_⟩
    · by_cases hso : e.streamoff ≠ 0 <;> simp [stop_stream, xioctl, hso, entry_state]
    · by_cases hso : e.streamoff ≠ 0 <;>
        simp [stop_stream, xioctl, hso, entry_state, hq1ne]
    · by_cases hso : e.streamoff ≠ 0 <;>
        simp [stop_stream, xioctl, hso, entry_state, hq1ne]
    · intro j hj
      have hbv : (stop_stream e.streamoff
          ({ entry_state e (k + (m + 1)) with
              quit := q1,
              brightness_values := some (setSamples e e.fmt_width e.fmt_height k 0 (List.replicate (k + (m + 1)) 0)) })).brightness_values =
          some (setSamples e e.fmt_width e.fmt_height k 0 (List.replicate (k + (m + 1)) 0)) := by
        by_cases hso : e.streamoff ≠ 0 <;> simp [stop_stream, xioctl, hso, entry_state]
      rw [hbv]
      simp only [Option.getD_some]
      rw [setSamples_get?, if_pos (by simp; omega)]

/-- Capture environment in which every stage and every frame succeeds
(frame buffers `[200, 7]`, `bytesused = 2`). -/
def capEnvW : CaptureEnv :=
  ⟨3, 0, true, true, 0, 0, 160, 120, 0, 0, 64, 4096, 0, fun _ => ⟨0, 0, 0, 2, [200, 7]⟩, 0⟩

/-- Capture environment whose setup succeeds but whose every frame fails
its enqueue ioctl with errno 7, with a successful immediate stop and a
final stream-off that itself fails with errno 9. -/
def capEnvWB : CaptureEnv :=
  ⟨3, 0, true, true, 0, 0, 160, 120, 0, 0, 64, 4096, 0, fun _ => ⟨7, 0, 0, 0, []⟩, 9⟩

/-- C1 witness: the amended theorem applied to a one-frame request in a
fully successful environment (success branch), and to a one-frame request
whose enqueue ioctl fails with errno 7 and whose final stream-off fails
with errno 9 (failure branch: the stream-off errno 9 is reported, the
value is the -1 sentinel). -/
theorem C1_amended_mid_loop_failure_witness :
    setup_ok capEnvW ∧
    ((capture_frames capEnvW 1).err = 0 ∧
     (capture_frames capEnvW 1).val =
       compute_avg_brightness
         ((List.range 1).map (sampleVal capEnvW capEnvW.fmt_width capEnvW.fmt_height))) ∧
    ((capture_frames capEnvWB 1).err = 9 ∧
     (capture_frames capEnvWB 1).err ≠ 0 ∧
     (capture_frames capEnvWB 1).val = -1) := by
  have hs : setup_ok capEnvW := by
    refine ⟨by decide, rfl, rfl, rfl, rfl, rfl, rfl, by decide, rfl⟩
  have hs2 : setup_ok capEnvWB := by
    refine ⟨by decide, rfl, rfl, rfl, rfl, rfl, rfl, by decide, rfl⟩
  have hB := (C1_amended_mid_loop_failure capEnvWB 1 hs2).2 0 (by norm_num)
    (fun j hj => absurd hj (by omega)) (Or.inl (by decide))
  refine ⟨hs,
    (C1_amended_mid_loop_failure capEnvW 1 hs).1 (fun j hj => ⟨rfl, rfl⟩) rfl,
    ?_, hB.2.1, hB.2.2.1⟩
  simpa [capEnvWB] using hB.1

/-- Capture environment whose setup fully succeeds, whose frame 0 succeeds
with brightness `200 / (160 * 120) = 1/96`, and whose frame 1 fails its
dequeue ioctl with errno 5 (`EIO`). -/
def capEnvC1 : CaptureEnv :=
  ⟨3, 0, true, true, 0, 0, 160, 120, 0, 0, 64, 4096, 0,
   fun j => if j = 0 then ⟨0, 0, 0, 2, [200, 7]⟩ else ⟨0, 5, 0, 0, []⟩, 0⟩

/-- C1 counterexample: the device is successfully opened, configured,
mapped and streamed, frame 0 produces the sample `1/96`, but frame 1's
dequeue ioctl fails with errno 5 — and the request then reports error 5
with the sentinel value -1 instead of returning a numeric aggregate, so
the sample collected before the failing frame contributes to no returned
aggregate (it merely remains in the freed array). -/
theorem C1_counterexample_frame_failure_reports_error :
    setup_ok capEnvC1 ∧
    (capture_frames capEnvC1 2).err = 5 ∧
    (capture_frames capEnvC1 2).val = -1 ∧
    (capture_frames capEnvC1 2).final.brightness_values = some [1 / 96, 0] := by
  refine ⟨⟨by decide, rfl, rfl, rfl, rfl, rfl, rfl, by decide, rfl⟩, ?_, ?_, ?_⟩ <;>
    norm_num [capture_frames, open_device, init_dev, init_mmap, start_stream, stop_stream,
      xioctl, cap_loop, capture_frame, set_sample, compute_brightness, evenSum, state0,
      capEnvC1, List.replicate_succ, List.set]

/-- Capture environment in which open, the configuration ioctls and the
buffer ioctls succeed but the `mmap` call itself fails (`MAP_FAILED`,
modelled as address -1). -/
def capEnvC3 : CaptureEnv :=
  ⟨3, 0, true, true, 0, 0, 160, 120, 0, 0, 64, -1, 0, fun _ => ⟨0, 0, 0, 0, []⟩, 0⟩

/-- C3: after a failed memory-map attempt the stored buffer pointer is
`MAP_FAILED` (-1), which is non-NULL, so `free_all` *does* attempt to
unmap the non-existent mapping (`unmapped = true`) — the guard
`if (state->buffer)` only filters NULL; the open handle is closed
(correct, the device was opened) and the sample array is not freed
(correct, it was never allocated).  By contrast, a session that failed at
the open stage performs no teardown action at all. -/
theorem C3_unmap_attempted_after_failed_mmap :
    (capture_frames capEnvC3 5).final.buffer = -1 ∧
    (capture_frames capEnvC3 5).acts.unmapped = true ∧
    (capture_frames capEnvC3 5).acts.closed_fd = true ∧
    (capture_frames capEnvC3 5).acts.freed_samples = false ∧
    (capture_frames capEnv0 5).acts = ⟨false, false, false⟩ := by
  refine ⟨?_, ?_, ?_, ?_, ?_⟩ <;>
    norm_num [capture_frames, open_device, init_dev, init_mmap, start_stream, stop_stream,
      xioctl, cap_loop, capture_frame, state0, free_all, capEnvC3, capEnv0]

/- ------------------------------------------------------------------ -/
/- EventDispatcher: main.c                                             -/
/- ------------------------------------------------------------------ -/

def BUS : ℕ := 0
def SIGNAL : ℕ := 1
def BRIGHT_SMOOTH : ℕ := 2
def GAMMA_SMOOTH : ℕ := 3
def WEBCAM_MON : ℕ := 4
def ALS_MON : ℕ := 5

def LEAVE_W_ERR : ℤ := -1
def SIGNAL_RCV : ℤ := 1

/-- The registration order of the poll set (`enum poll_idx` with
`GAMMA_PRESENT` defined): bus, signal, brightness-smoothing timer,
gamma-smoothing timer, webcam hotplug monitor, ALS hotplug monitor. -/
def poll_order : List ℕ := [BUS, SIGNAL, BRIGHT_SMOOTH, GAMMA_SMOOTH, WEBCAM_MON, ALS_MON]

/-- One poll wake-up: the return value of `poll(2)`, whether an error return
had `errno == EINTR`, which indices have `POLLIN` set, and whether
`sd_bus_process` fails during this wake-up's `bus_cb` drain. -/
structure Wakeup where
  pollRet : ℤ
  eintr : Bool
  ready : ℕ → Bool
  busFail : Bool

/-- Effect of invoking the handler of index `i` on the `quit` flag (the
handlers run only while `quit = 0`): `bus_cb` sets `LEAVE_W_ERR` exactly
when `sd_bus_process` fails, `signal_cb` always sets `SIGNAL_RCV`, and
the smoothing-timer and hotplug-monitor handlers never touch `quit`. -/
def handler_effect (w : Wakeup) (i : ℕ) : ℤ :=
  if i = BUS then (if w.busFail then LEAVE_W_ERR else 0)
  else if i = SIGNAL then SIGNAL_RCV
  else 0

/-- Embedding of the inner scan
`for (int i = 0; i < POLL_SIZE && !quit && r > 0; i++)` of `main_poll`:
walk the registration order, servicing each `POLLIN`-ready index and
decrementing `r`, stopping as soon as `quit` is set or `r` reaches 0.
Returns the list of serviced indices and the final `quit` value. -/
def scanGo (w : Wakeup) : List ℕ → ℤ → ℤ → List ℕ × ℤ
  | [], q, _ => ([], q)
  | i :: rest, q, r =>
    if q ≠ 0 ∨ r ≤ 0 then ([], q)
    else if w.ready i then
      let res := scanGo w rest (handler_effect w i) (r - 1)
      (i :: res.1, res.2)
    else scanGo w rest q r

/-- The scan of one wake-up, started from the current `quit` value with
`r = poll(2)`'s return value. -/
def main_poll_scan (w : Wakeup) (q : ℤ) : List ℕ × ℤ :=
  scanGo w poll_order q w.pollRet

/-- One iteration of the `while (!quit)` loop of `main_poll`: a poll error
not caused by `EINTR` sets `quit = LEAVE_W_ERR`, then the scan runs. -/
def poll_step (w : Wakeup) (q : ℤ) : ℤ :=
  (main_poll_scan w (if w.pollRet = -1 ∧ ¬ w.eintr then LEAVE_W_ERR else q)).2

/-- Embedding of `main_poll` from main.c over a finite trace of wake-ups:
run iterations while `quit = 0`; `some q` is the `quit` value at loop
exit, `none` means the trace ended with the loop still running. -/
def main_poll : List Wakeup → ℤ → Option ℤ
  | [], q => if q ≠ 0 then some q else none
  | w :: ws, q => if q ≠ 0 then some q else main_poll ws (poll_step w q)

def EXIT_SUCCESS : ℕ := 0
def EXIT_FAILURE : ℕ := 1

/-- Environment of one run of `main()`: the return values of
`sd_bus_default_system`, `sd_bus_add_object_vtable` and
`sd_bus_request_name`, whether the initial `bus_cb()` drain fails, and
the poll-loop trace. -/
structure MainEnv where
  busConnect : ℤ
  addVtable : ℤ
  requestName : ℤ
  initialBusFail : Bool
  wakeups : List Wakeup

/-- Embedding of `main()` from main.c up to the `finish:` label: any
negative startup return jumps to `finish` with `quit` still 0; otherwise
the initial `bus_cb()` runs (possibly setting `LEAVE_W_ERR`) and then
`main_poll`.  The value is the `quit` flag at `finish`. -/
def mainQuit (e : MainEnv) : Option ℤ :=
  if e.busConnect < 0 then some 0
  else if e.addVtable < 0 then some 0
  else if e.requestName < 0 then some 0
  else main_poll e.wakeups (if e.initialBusFail then LEAVE_W_ERR else 0)

/-- Embedding of `return quit == LEAVE_W_ERR ? EXIT_FAILURE : EXIT_SUCCESS;`
at the end of `main()`. -/
def mainExit (e : MainEnv) : Option ℕ :=
  (mainQuit e).map (fun q => if q = LEAVE_W_ERR then EXIT_FAILURE else EXIT_SUCCESS)

/-- A startup stage of `main()` failed (bus connection, vtable
installation, or name registration). -/
def startup_failed (e : MainEnv) : Prop :=
  e.busConnect < 0 ∨ e.addVtable < 0 ∨ e.requestName < 0

/-- Modelled from the spec, for the refinement claim C8: the ready sources
in fixed priority order, cut immediately after the first serviced handler
that sets the quit flag, so no further handler runs in that wake-up. -/
def spec_serve (w : Wakeup) : List ℕ → List ℕ
  | [] => []
  | i :: rest => i :: (if handler_effect w i ≠ 0 then [] else spec_serve w rest)

lemma scanGo_stopped (w : Wakeup) (l : List ℕ) (q r : ℤ) (hq : q ≠ 0) :
    scanGo w l q r = ([], q) := by
  cases l <;> simp [scanGo, hq]

lemma scanGo_spec (w : Wakeup) :
    ∀ (l : List ℕ) (r : ℤ), r = ((l.filter w.ready).length : ℤ) →
      (scanGo w l 0 r).1 = spec_serve w (l.filter w.ready) := by
  intro l
  induction l with
  | nil => intro r hr; simp [scanGo, spec_serve]
  | cons i rest ih =>
    intro r hr
    by_cases hready : w.ready i
    · rw [List.filter_cons_of_pos hready] at hr ⊢
      have hrpos : 0 < r := by rw [hr, List.length_cons]; push_cast; omega
      rw [scanGo, if_neg (by omega), if_pos hready, spec_serve]
      by_cases he : handler_effect w i = 0
      · rw [if_neg (by simpa using he)]
        have : (scanGo w rest (handler_effect w i) (r - 1)).1 =
            spec_serve w (rest.filter w.ready) := by
          rw [he]
          apply ih
          rw [List.length_cons] at hr
          push_cast at hr ⊢
          omega
        simp [this]
      · rw [if_pos he, scanGo_stopped w rest _ _ he]
    · rw [List.filter_cons_of_neg hready] at hr ⊢
      by_cases hr0 : r ≤ 0
      · have hlen : (rest.filter w.ready).length = 0 := by omega
        rw [List.length_eq_zero.mp hlen]
        rw [scanGo, if_pos (Or.inr hr0)]
        rfl
      · rw [scanGo, if_neg (by omega), if_neg hready]
        exact ih r hr

/-- C8: within one wake-up started with the quit flag clear and `poll`'s
return value equal to the number of ready sources, the serviced indices
are exactly the ready sources in the fixed priority order bus, signal,
brightness-smoothing timer, gamma-smoothing timer, webcam monitor, ALS
monitor, truncated immediately after the first handler that sets the quit
flag — the flag is re-checked before every handler invocation, so no
further handler of that wake-up runs. -/
theorem C8_priority_order_and_prompt_shutdown (w : Wakeup)
    (hr : w.pollRet = ((poll_order.filter w.ready).length : ℤ)) :
    (main_poll_scan w 0).1 = spec_serve w (poll_order.filter w.ready) := by
  unfold main_poll_scan
  exact scanGo_spec w poll_order w.pollRet hr

/-- A wake-up with the bus and signal sources ready, used as witness. -/
def wakeup8 : Wakeup := ⟨2, false, fun i => i == 0 || i == 1, false⟩

/-- C8 witness: the ordering theorem applied to a wake-up with the bus and
the signal source ready. -/
theorem C8_priority_order_and_prompt_shutdown_witness :
    wakeup8.pollRet = ((poll_order.filter wakeup8.ready).length : ℤ) ∧
    (main_poll_scan wakeup8 0).1 = spec_serve wakeup8 (poll_order.filter wakeup8.ready) :=
  ⟨by decide, C8_priority_order_and_prompt_shutdown wakeup8 (by decide)⟩

/- ------------------------------------------------------------------ -/
/- C4: process exit condition                                          -/
/- ------------------------------------------------------------------ -/

lemma handler_effect_vals (w : Wakeup) (i : ℕ) :
    handler_effect w i = 0 ∨ handler_effect w i = LEAVE_W_ERR ∨
      handler_effect w i = SIGNAL_RCV := by
  unfold handler_effect
  split_ifs <;> tauto

lemma scanGo_vals (w : Wakeup) :
    ∀ (l : List ℕ) (q r : ℤ), (q = 0 ∨ q = LEAVE_W_ERR ∨ q = SIGNAL_RCV) →
      ((scanGo w l q r).2 = 0 ∨ (scanGo w l q r).2 = LEAVE_W_ERR ∨
        (scanGo w l q r).2 = SIGNAL_RCV) := by
  intro l
  induction l with
  | nil => intro q r hq; simpa [scanGo] using hq
  | cons i rest ih =>
    intro q r hq
    rw [scanGo]
    split_ifs with h1 h2
    · simpa using hq
    · exact ih _ _ (handler_effect_vals w i)
    · exact ih _ _ hq

lemma poll_step_vals (w : Wakeup) (q : ℤ)
    (hq : q = 0 ∨ q = LEAVE_W_ERR ∨ q = SIGNAL_RCV) :
    poll_step w q = 0 ∨ poll_step w q = LEAVE_W_ERR ∨ poll_step w q = SIGNAL_RCV := by
  unfold poll_step main_poll_scan
  apply scanGo_vals
  split_ifs <;> tauto

lemma main_poll_vals :
    ∀ (ws : List Wakeup) (q x : ℤ), (q = 0 ∨ q = LEAVE_W_ERR ∨ q = SIGNAL_RCV) →
      main_poll ws q = some x → (x = LEAVE_W_ERR ∨ x = SIGNAL_RCV) := by
  intro ws
  induction ws with
  | nil =>
    intro q x hq h
    rw [main_poll] at h
    by_cases h0 : q ≠ 0
    · rw [if_pos h0] at h
      obtain rfl : q = x := by injection h
      tauto
    · rw [if_neg h0] at h
      exact absurd h (by simp)
  | cons w rest ih =>
    intro q x hq h
    rw [main_poll] at h
    by_cases h0 : q ≠ 0
    · rw [if_pos h0] at h
      obtain rfl : q = x := by injection h
      tauto
    · rw [if_neg h0] at h
      exact ih _ x (poll_step_vals w q hq) h

/-- Main environment whose initial bus connection fails (with `-5`,
i.e. `-EIO`). -/
def mainEnvC4 : MainEnv := ⟨-5, 0, 0, false, []⟩

/-- C4 counterexample: a daemon-fatal startup error — the initial bus
connection fails — jumps to `finish` with the quit flag still 0, and the
process terminates with `EXIT_SUCCESS` (0), not with a non-zero exit
condition as the claim requires. -/
theorem C4_counterexample_startup_failure_exits_zero :
    mainEnvC4.busConnect < 0 ∧ mainExit mainEnvC4 = some EXIT_SUCCESS := by
  constructor
  · decide
  · simp [mainExit, mainQuit, mainEnvC4, EXIT_SUCCESS, LEAVE_W_ERR]

/-- C4 (amended): the process terminates with the non-zero exit condition
exactly when the quit flag ends at the error-shutdown code `LEAVE_W_ERR`
(set by a poll-loop I/O error not caused by an expected interrupt, or by
a bus-dispatch failure); a caught termination signal ends the loop at
`SIGNAL_RCV` and exits zero; and — contrary to the original claim — a
startup failure (initial bus connection, vtable installation, or
name-registration failure) skips the loop with the flag still at 0 and
also exits zero.  When startup succeeded, the loop can only end at
`LEAVE_W_ERR` or `SIGNAL_RCV`. -/
theorem C4_amended_exit_condition (e : MainEnv) (q : ℤ) (h : mainQuit e = some q) :
    (mainExit e = some EXIT_FAILURE ↔ q = LEAVE_W_ERR) ∧
    (startup_failed e → mainExit e = some EXIT_SUCCESS) ∧
    (¬ startup_failed e → (q = LEAVE_W_ERR ∨ q = SIGNAL_RCV)) := by
  refine ⟨?_, ?_, ?_⟩
  · simp only [mainExit, h, Option.map_some']
    unfold EXIT_FAILURE EXIT_SUCCESS
    split_ifs with hq <;> simp [hq]
  · intro hs
    have hq0 : mainQuit e = some 0 := by
      unfold mainQuit
      rcases hs with h1 | h2 | h3
      · rw [if_pos h1]
      · by_cases h1 : e.busConnect < 0
        · rw [if_pos h1]
        · rw [if_neg h1, if_pos h2]
      · by_cases h1 : e.busConnect < 0
        · rw [if_pos h1]
        · by_cases h2 : e.addVtable < 0
          · rw [if_neg h1, if_pos h2]
          · rw [if_neg h1, if_neg h2, if_pos h3]
    simp [mainExit, hq0, EXIT_SUCCESS, LEAVE_W_ERR]
  · intro hns
    unfold startup_failed at hns
    push_neg at hns
    unfold mainQuit at h
    rw [if_neg (not_lt.mpr hns.1), if_neg (not_lt.mpr hns.2.1),
      if_neg (not_lt.mpr hns.2.2)] at h
    exact main_poll_vals e.wakeups _ q (by split_ifs <;> tauto) h

/-- A startup-clean environment whose single wake-up delivers a termination
signal. -/
def mainEnvW : MainEnv := ⟨0, 0, 0, false, [⟨1, false, fun i => i == 1, false⟩]⟩

/-- C4 witness: the amended theorem applied to a run that is shut down by a
caught signal (quit ends at `SIGNAL_RCV`, exit is zero). -/
theorem C4_amended_exit_condition_witness :
    mainQuit mainEnvW = some SIGNAL_RCV ∧
    ((mainExit mainEnvW = some EXIT_FAILURE ↔ SIGNAL_RCV = LEAVE_W_ERR) ∧
     (startup_failed mainEnvW → mainExit mainEnvW = some EXIT_SUCCESS) ∧
     (¬ startup_failed mainEnvW → (SIGNAL_RCV = LEAVE_W_ERR ∨ SIGNAL_RCV = SIGNAL_RCV))) := by
  have hq : mainQuit mainEnvW = some SIGNAL_RCV := by decide
  exact ⟨hq, C4_amended_exit_condition mainEnvW SIGNAL_RCV hq⟩
